import Mathlib

/-!
Verification of the campaign forwarding and monitoring engine of
`adbot.py` (classes `MonitorDashboard` and `MessageForwarder`).

Each definition below is a shallow embedding of a concrete piece of the
Python source; doc comments cite the source lines it models.
-/

namespace AdBot

/-! ### String helpers: Python `needle in haystack` and `str.lower()` -/

/-- Boolean test that `needle` is a leading segment of `hay` (character lists). -/
def listHasPre : List Char → List Char → Bool
  | [], _ => true
  | _ :: _, [] => false
  | a :: ns, b :: hs => a == b && listHasPre ns hs

/-- Boolean test that `needle` occurs contiguously inside `hay` (character lists). -/
def listHasSub : List Char → List Char → Bool
  | needle, [] => needle.isEmpty
  | needle, b :: t => listHasPre needle (b :: t) || listHasSub needle t

/-- Python `needle in hay` on strings (case-sensitive substring containment). -/
def strContains (hay needle : String) : Bool :=
  listHasSub needle.data hay.data

/-- ASCII lowering of one character, as Python `str.lower()` acts on the ASCII
range (every substring the classifier tests against is ASCII). -/
def lowerChar (c : Char) : Char :=
  if 65 ≤ c.toNat ∧ c.toNat ≤ 90 then Char.ofNat (c.toNat + 32) else c

/-- Python `s.lower()` restricted to ASCII case folding. -/
def lowerStr (s : String) : String :=
  ⟨s.data.map lowerChar⟩

/-! ### `MessageForwarder._classify_error` (adbot.py lines 1506-1529) -/

/-- Embedding of `MessageForwarder._classify_error`: lower-case the message,
then run the if/elif chain of substring tests in source order
(adbot.py lines 1506-1529), falling back to `"other"`. -/
def classify_error (error_message : String) : String :=
  let m := lowerStr error_message
  if strContains m "banned" || strContains m "restrict" then "banned"
  else if strContains m "not found" || strContains m "invalid" then "not_found"
  else if strContains m "private" || strContains m "access" then "access_denied"
  else if strContains m "permission" || strContains m "403" then "permission_denied"
  else if strContains m "too many" || strContains m "420" || strContains m "flood" then "rate_limited"
  else if strContains m "topic" && strContains m "not found" then "topic_not_found"
  else if strContains m "message" && strContains m "not found" then "message_not_found"
  else if strContains m "timeout" || strContains m "disconnect" then "connection_error"
  else if strContains m "too long" || strContains m "large" then "content_too_large"
  else "other"

/-- The ten-tag taxonomy of §4.1 of the design. -/
def reasonTaxonomy : List String :=
  ["banned", "not_found", "access_denied", "permission_denied", "rate_limited",
   "topic_not_found", "message_not_found", "connection_error", "content_too_large",
   "other"]

/-- C8: for every input string, `classify_error` returns exactly one tag drawn
from the fixed ten-tag taxonomy; as a Lean function it is pure, deterministic
and total, and the final `else` branch realises the fallback to `"other"`. -/
theorem classify_error_total (s : String) : classify_error s ∈ reasonTaxonomy := by
  unfold classify_error reasonTaxonomy
  dsimp only
  iterate 9 (any_goals split)
  all_goals simp

/-- C2: evaluating `_classify_error` at the failing input `"topic not found"`:
the string contains both `"topic"` and `"not found"`, yet the result is
`"not_found"`, because the generic `not_found` rule (line 1512) precedes the
`topic_not_found` rule (line 1520), making the latter unreachable. -/
theorem classify_topic_not_found_eval :
    classify_error "topic not found" = "not_found" ∧
    strContains (lowerStr "topic not found") "topic" = true ∧
    strContains (lowerStr "topic not found") "not found" = true := by
  refine ⟨?_, ?_, ?_⟩ <;> decide

/-! ### Flood-wait parsing in `MonitorDashboard._live_monitor`
(adbot.py lines 744-799 for the in-loop push-failure handler,
lines 891-908 for the final-summary retry handler) -/

/-- Maximal leading run of decimal digits of a character list
(the greedy behaviour of the regex group `(\d+)`). -/
def digitRun : List Char → List Char
  | [] => []
  | c :: t => if c.isDigit then c :: digitRun t else []

/-- Numeric value of a list of decimal digits (Python `int`). -/
def digitsToNat (ds : List Char) : Nat :=
  ds.foldl (fun a c => a * 10 + (c.toNat - 48)) 0

/-- Try to match the regex `of (\d+) seconds` at the head of the list:
literal `"of "`, then at least one digit (greedily), then `" seconds"`. -/
def matchOfSecondsAt (l : List Char) : Option Nat :=
  if listHasPre "of ".data l then
    let rest := l.drop 3
    let ds := digitRun rest
    if ds.isEmpty then none
    else if listHasPre " seconds".data (rest.drop ds.length) then some (digitsToNat ds)
    else none
  else none

/-- `re.search(r'of (\d+) seconds', error_msg)` (adbot.py line 753): leftmost
match wins; backtracking inside the digit group can never help because a
shorter digit run is followed by a digit, not by the literal space. -/
def searchOfSeconds : List Char → Option Nat
  | [] => none
  | c :: t =>
    match matchOfSecondsAt (c :: t) with
    | some n => some n
    | none => searchOfSeconds t

/-- The flood-wait sleep attempted by the in-loop push-failure handler
(adbot.py lines 749-770): taken only when the lower-cased error contains
`"wait"` **and** `re.search(r'of (\d+) seconds', error_msg)` succeeds; the
sleep is the parsed value plus the 5-second safety margin, after which the
handler sets `last_successful_update` and `continue`s. When the regex fails,
`.group(1)` of `None` raises, the inner `except` swallows it and **no**
flood sleep happens (there is no 60-second default on this path). -/
def inLoopFloodSleep (errorMsg : String) : Option Nat :=
  if strContains (lowerStr errorMsg) "wait" then
    match searchOfSeconds errorMsg.data with
    | some w => some (w + 5)
    | none => none
  else none

/-- Total time slept by `_live_monitor` between a failed in-loop push and the
next loop-condition check (adbot.py lines 744-799): the flood path sleeps
`wait + 5` and `continue`s (skipping the per-iteration sleep at line 799);
otherwise the handler falls through to the consecutive-failure backoff
`min 30 (5 * 2 ^ (update_failures - 3))` (only once `update_failures > 3`,
line 783-787) followed by the adaptive per-iteration sleep of 2 seconds when
the status is `"sending"` and 5 seconds otherwise (lines 562-563, 793-799). -/
def monitorSleepAfterFailure (errorMsg : String) (updateFailures : Nat)
    (statusSending : Bool) : Nat :=
  match inLoopFloodSleep errorMsg with
  | some w => w
  | none =>
    (if 3 < updateFailures then min 30 (5 * 2 ^ (updateFailures - 3)) else 0) +
      (if statusSending then 2 else 5)

/-- Try to match the regex `A wait of (\d+) seconds` at the head of the
list: literal `"A wait of "`, then at least one digit (greedily), then
`" seconds"`. -/
def matchAWaitOfSecondsAt (l : List Char) : Option Nat :=
  if listHasPre "A wait of ".data l then
    let rest := l.drop 10
    let ds := digitRun rest
    if ds.isEmpty then none
    else if listHasPre " seconds".data (rest.drop ds.length) then some (digitsToNat ds)
    else none
  else none

/-- `re.search(r'A wait of (\d+) seconds', error_msg)` (adbot.py line 896),
the stricter pattern used by the final-summary retry handler. -/
def searchAWaitOfSeconds : List Char → Option Nat
  | [] => none
  | c :: t =>
    match matchAWaitOfSecondsAt (c :: t) with
    | some n => some n
    | none => searchAWaitOfSeconds t

/-- The retry wait of the final-summary push handler (adbot.py lines
891-908): here a default of 60 seconds **is** used when the regex
`A wait of (\d+) seconds` does not match, and 5 seconds are added
(lines 893-901). -/
def finalRetryWait (errorMsg : String) : Nat :=
  (match searchAWaitOfSeconds errorMsg.data with
   | some w => w
   | none => 60) + 5

/-! ### Push spacing of `MonitorDashboard._live_monitor`
(adbot.py lines 556-804 for the loop, lines 806-911 for the final push) -/

/-- Oracle input for one iteration of the `_live_monitor` loop:
`t` is `time.time()` at the spacing gate (line 736), `editOk` the outcome of
`edit_message` when it is attempted, `floodW` the value parsed by the
flood-wait handler on failure (`none` when the handler does not fire), and
`notMod` whether the failure is `"message is not modified"` (line 777). -/
structure MonIter where
  t : Nat
  editOk : Bool
  floodW : Option Nat
  notMod : Bool
deriving DecidableEq

/-- One push (a call to `edit_message`) issued by the monitor, with the time
it was issued at and whether it succeeded. -/
structure PushEv where
  time : Nat
  ok : Bool
deriving DecidableEq

/-- One iteration of the `_live_monitor` loop, threading
`last_successful_update` (initialised at line 572, read at line 736):
a push is issued only when `t - last ≥ 5` (line 737); on success `last := t`
(line 739); on a parsed flood wait the handler sleeps `w + 5` and then sets
`last` to the post-sleep time (lines 762-765); on `"message is not
modified"` it sets `last := t` (line 780); on other failures `last` is left
unchanged. Returns the new `last` and the push event, if one was issued. -/
def monIterStep (last : Nat) (it : MonIter) : Nat × Option PushEv :=
  if 5 ≤ it.t - last then
    if it.editOk then (it.t, some ⟨it.t, true⟩)
    else
      match it.floodW with
      | some w => (it.t + w + 5, some ⟨it.t, false⟩)
      | none => (if it.notMod then it.t else last, some ⟨it.t, false⟩)
  else (last, none)

/-- The in-loop part of `_live_monitor`: run the iterations in order,
collecting the pushes that were issued. -/
def runMonitor : Nat → List MonIter → Nat × List PushEv
  | last, [] => (last, [])
  | last, it :: rest =>
    let s := monIterStep last it
    let r := runMonitor s.1 rest
    (r.1, s.2.toList ++ r.2)

/-- A whole `_live_monitor` run on the path where the campaign still exists
when the loop exits: the in-loop pushes followed by the final-summary push
(adbot.py line 880), which is issued **without** any spacing check, at the
loop-exit time `tFinal`. -/
def runMonitorFull (last0 : Nat) (its : List MonIter) (tFinal : Nat) : List PushEv :=
  (runMonitor last0 its).2 ++ [⟨tFinal, true⟩]

/-- Spacing property of a push list: every push that follows a successful
push is issued at least 5 seconds after it. -/
def Spaced : List PushEv → Prop
  | [] => True
  | p :: ps => (p.ok = true → ∀ q ∈ ps, p.time + 5 ≤ q.time) ∧ Spaced ps

theorem monIterStep_last_le (last : Nat) (it : MonIter) :
    last ≤ (monIterStep last it).1 := by
  unfold monIterStep
  iterate 4 (any_goals split)
  all_goals dsimp only
  all_goals omega

theorem monIterStep_push_time (last : Nat) (it : MonIter) (p : PushEv)
    (h : (monIterStep last it).2 = some p) : last + 5 ≤ p.time ∧ p.time = it.t := by
  unfold monIterStep at h
  split at h
  · next hg =>
    split at h
    · simp only [Option.some.injEq] at h
      subst h
      dsimp only
      omega
    · split at h <;> simp only [Option.some.injEq] at h <;> subst h <;>
        dsimp only <;> constructor <;> first | rfl | omega
  · simp at h

theorem monIterStep_ok_last (last : Nat) (it : MonIter) (p : PushEv)
    (h : (monIterStep last it).2 = some p) (hok : p.ok = true) :
    (monIterStep last it).1 = p.time := by
  unfold monIterStep at h ⊢
  split at h
  · next hg =>
    rw [if_pos hg]
    split at h
    · next he =>
      rw [if_pos he]
      simp only [Option.some.injEq] at h
      subst h
      rfl
    · next he =>
      rw [if_neg he]
      split at h <;> simp only [Option.some.injEq] at h <;> subst h <;> simp at hok
  · simp at h

theorem runMonitor_push_time (last : Nat) (its : List MonIter) :
    ∀ p ∈ (runMonitor last its).2, last + 5 ≤ p.time := by
  induction its generalizing last with
  | nil => intro p hp; simp [runMonitor] at hp
  | cons it rest ih =>
    intro p hp
    simp only [runMonitor, List.mem_append, Option.mem_toList, Option.mem_def] at hp
    rcases hp with hp | hp
    · exact (monIterStep_push_time last it p hp).1
    · have h1 := monIterStep_last_le last it
      have h2 := ih (monIterStep last it).1 p hp
      omega

/-- C1 (amended): within the `_live_monitor` loop, a push is issued only when
at least 5 seconds have elapsed since `last_successful_update` (line 737),
and `last_successful_update` never drops below the time of the last
successful push; hence every push that follows a **successful** in-loop push
comes at least 5 seconds after it. The original claim fails in exactly the
two ways `monitor_pushes_closer_than_5s` exhibits: a failed edit leaves
`last_successful_update` unchanged, so the push after a *failed* push can
come as little as 2 seconds later, and the final-summary push (line 880,
outside `runMonitor`) is issued with no gate at all. -/
theorem monitor_loop_spacing (last0 : Nat) (its : List MonIter) :
    Spaced (runMonitor last0 its).2 := by
  induction its generalizing last0 with
  | nil => simp [runMonitor, Spaced]
  | cons it rest ih =>
    simp only [runMonitor]
    rcases hs : (monIterStep last0 it).2 with _ | p
    · simpa using ih (monIterStep last0 it).1
    · simp only [Option.toList_some, List.cons_append, List.nil_append, Spaced]
      refine ⟨fun hok q hq => ?_, ih _⟩
      have hlast := monIterStep_ok_last last0 it p hs hok
      have hq5 := runMonitor_push_time (monIterStep last0 it).1 rest q hq
      omega

/-- C1 counterexample, both reachable violations of "no two pushes for the
same campaign ever occur closer together than 5 seconds".
First: the monitor starts with `last_successful_update = 95`, pushes
successfully at time 100, the monitor is stopped and the loop exits at time
102, and the final-summary push (adbot.py line 880, not subject to the gate
of line 737) is issued at 102 — 2 seconds after the previous push.
Second: with `last_successful_update = 0`, an in-loop edit is issued at time
6 and fails with a generic error, which leaves `last_successful_update`
unchanged (lines 744-790); after the 2-second sending-interval sleep (lines
793-799) the next edit at time 8 passes the gate — two in-loop pushes
2 seconds apart. -/
theorem monitor_pushes_closer_than_5s :
    (runMonitorFull 95 [⟨100, true, none, false⟩] 102 =
        [⟨100, true⟩, ⟨102, true⟩] ∧ 102 < 100 + 5) ∧
    ((runMonitor 0 [⟨6, false, none, false⟩, ⟨8, true, none, false⟩]).2 =
        [⟨6, false⟩, ⟨8, true⟩] ∧ 8 < 6 + 5) := by
  refine ⟨⟨by decide, by decide⟩, by decide, by decide⟩

/-- C6 (amended): when a failed in-loop push's error text contains `"wait"`
(case-insensitively) and matches the regex `of (\d+) seconds` with value `w`,
the monitor sleeps exactly `w + 5` seconds before the next loop pass. -/
theorem flood_wait_sleep (msg : String) (w uf : Nat) (ss : Bool)
    (h1 : strContains (lowerStr msg) "wait" = true)
    (h2 : searchOfSeconds msg.data = some w) :
    monitorSleepAfterFailure msg uf ss = w + 5 := by
  simp [monitorSleepAfterFailure, inLoopFloodSleep, h1, h2]

/-- Witness for `flood_wait_sleep`: the typical provider error text
`"A wait of 12 seconds is required"` makes the monitor sleep 17 seconds. -/
theorem flood_wait_sleep_witness :
    monitorSleepAfterFailure "A wait of 12 seconds is required" 1 false = 17 :=
  flood_wait_sleep "A wait of 12 seconds is required" 12 1 false
    (by decide) (by decide)

/-- C6 counterexample: the push error `"Please wait 12 seconds"` contains
`"wait ... seconds"` with value 12, but the in-loop handler's regex
`of (\d+) seconds` does not match it, no 60-second default exists on this
path, and the monitor sleeps only the regular 5-second interval — not the
17 seconds the claim requires. -/
theorem flood_wait_unparseable_no_default :
    strContains (lowerStr "Please wait 12 seconds") "wait" = true ∧
    monitorSleepAfterFailure "Please wait 12 seconds" 1 false = 5 ∧
    ¬ (17 ≤ monitorSleepAfterFailure "Please wait 12 seconds" 1 false) := by
  refine ⟨by decide, by decide, by decide⟩

/-! ### The forwarding engine: `MessageForwarder.forward_stored_message`
(adbot.py lines 1142-1504) and the monitor writes it performs -/

/-- The campaign entry held by `MonitorDashboard.campaigns` restricted to the
fields the claims are about: the `status` string and the three counters
(initialised at adbot.py lines 1176-1187). -/
structure Campaign where
  status : String
  total_sent : Nat
  failed_sends : Nat
  rounds_completed : Nat
deriving DecidableEq

/-- The campaign entry written by `add_campaign` at adbot.py lines 1176-1187:
`status = "running"`, all counters zero. -/
def initialCampaign : Campaign := ⟨"running", 0, 0, 0⟩

/-- The monitor writes `forward_stored_message` performs, in source order:
`roundStart n` is the round-top update (lines 1209-1212), `target ok` the
per-target update after a success (lines 1290-1296) or after exhausting
retries (lines 1418-1425), `batchEnd len` the once-per-batch statistics
update (lines 1429-1459), `roundEnd n` the round-boundary update
(lines 1472-1481), and `stopped`/`cancelled`/`errored` the terminal
`update_campaign_status` calls (lines 1198, 1495, 1500). -/
inductive EngineEv where
  | roundStart (n : Nat)
  | target (ok : Bool)
  | batchEnd (len : Nat)
  | roundEnd (n : Nat)
  | stopped
  | cancelled
  | errored
deriving DecidableEq

/-- Effect of each engine write on the campaign entry. `roundStart n` stores
`rounds_completed = n - 1` and `status = "sending"` (lines 1209-1212); a
successful target increments `total_sent` with `status = "sending"` (lines
1290-1296); a failed target increments `failed_sends` with
`status = "sending_with_errors"` (lines 1418-1425); the batch update fires
only when `len(batch) % 5 == 0 or len(batch) < 5` and rewrites the counters
with their current values and `status = "sending"` (lines 1430-1459); the
round-boundary update stores `rounds_completed = n`, the counters unchanged,
and `status = "waiting"` (lines 1472-1481); the terminal writes only set the
status (lines 1198, 1495, 1500). -/
def applyEv (c : Campaign) : EngineEv → Campaign
  | .roundStart n => { c with rounds_completed := n - 1, status := "sending" }
  | .target true => { c with total_sent := c.total_sent + 1, status := "sending" }
  | .target false => { c with failed_sends := c.failed_sends + 1, status := "sending_with_errors" }
  | .batchEnd len => if len % 5 == 0 || len < 5 then { c with status := "sending" } else c
  | .roundEnd n => { c with rounds_completed := n, status := "waiting" }
  | .stopped => { c with status := "stopped" }
  | .cancelled => { c with status := "cancelled" }
  | .errored => { c with status := "error" }

/-- Helper for `chunks20`: accumulate the current slice (in order) and emit it
once it reaches 20 elements. -/
def chunksAcc : List α → List α → List (List α)
  | acc, [] => if acc.isEmpty then [] else [acc]
  | acc, a :: t =>
    if acc.length + 1 == 20 then (acc ++ [a]) :: chunksAcc [] t
    else chunksAcc (acc ++ [a]) t

/-- The batch partition `target_list[i:i+20]` for `i in range(0, len, 20)`
(adbot.py lines 1217-1226): consecutive slices of 20, the final slice
shorter when the length is not a multiple of 20. -/
def chunks20 (l : List α) : List (List α) := chunksAcc [] l

/-- The engine writes performed while processing one batch `b` of per-target
outcomes: one `target` write per element (adbot.py lines 1229-1427) followed
by the once-per-batch `batchEnd` check (lines 1429-1459). -/
def batchEvents (b : List Bool) : List EngineEv :=
  b.map EngineEv.target ++ [EngineEv.batchEnd b.length]

/-- The engine writes of round number `n` over the per-target outcomes
`outs`: the round-top update, the batches, the round-boundary update
(adbot.py lines 1201-1481). -/
def roundEvents (n : Nat) (outs : List Bool) : List EngineEv :=
  EngineEv.roundStart n :: ((chunks20 outs).flatMap batchEvents ++ [EngineEv.roundEnd n])

/-- Rounds are numbered from 1 (`round_number += 1` at adbot.py line 1201). -/
def engineEventsAux : Nat → List (List Bool) → List EngineEv
  | _, [] => []
  | n, r :: rs => roundEvents n r ++ engineEventsAux (n + 1) rs

/-- How a finite engine run ends: the stored message was deleted (adbot.py
line 1198), the task was cancelled (line 1495), or the loop raised
(line 1500); `none` when the run is still in progress. -/
inductive EndEv where
  | stopMsg
  | cancelled
  | errored
deriving DecidableEq

def endEvents : Option EndEv → List EngineEv
  | none => []
  | some .stopMsg => [.stopped]
  | some .cancelled => [.cancelled]
  | some .errored => [.errored]

/-- The full sequence of monitor writes of one `forward_stored_message` run:
`rounds` lists, per round, the final per-target outcomes in snapshot order. -/
def engineEvents (rounds : List (List Bool)) (ending : Option EndEv) : List EngineEv :=
  engineEventsAux 1 rounds ++ endEvents ending

/-- Componentwise order on the three counters: the relation between the
stored values before and after each engine write that claim C4 asserts. -/
def countersLE (a b : Campaign) : Prop :=
  a.total_sent ≤ b.total_sent ∧ a.failed_sends ≤ b.failed_sends ∧
    a.rounds_completed ≤ b.rounds_completed

theorem scanl_head (f : β → α → β) (b : β) (l : List α) :
    (List.scanl f b l).head? = some b := by
  cases l <;> simp [List.scanl]

theorem chain'_scanl_append {f : β → α → β} {R : β → β → Prop}
    (l₁ l₂ : List α) (b : β)
    (h₁ : List.Chain' R (List.scanl f b l₁))
    (h₂ : List.Chain' R (List.scanl f (List.foldl f b l₁) l₂)) :
    List.Chain' R (List.scanl f b (l₁ ++ l₂)) := by
  induction l₁ generalizing b with
  | nil => simpa using h₂
  | cons a l₁ ih =>
    rw [List.cons_append, List.scanl_cons, List.singleton_append, List.chain'_cons']
    rw [List.scanl_cons, List.singleton_append, List.chain'_cons'] at h₁
    rw [List.foldl_cons] at h₂
    refine ⟨fun y hy => ?_, ih (f b a) h₁.2 h₂⟩
    rw [scanl_head] at hy
    simp only [Option.mem_def, Option.some.injEq] at hy
    subst hy
    exact h₁.1 (f b a) (by rw [scanl_head]; rfl)

theorem chain'_scanl_inv {f : β → α → β} {R : β → β → Prop} {I : β → Prop}
    (l : List α) (b : β) (hI : I b)
    (hstep : ∀ c a, I c → a ∈ l → R c (f c a) ∧ I (f c a)) :
    List.Chain' R (List.scanl f b l) ∧ I (List.foldl f b l) := by
  induction l generalizing b with
  | nil => simpa using hI
  | cons a l ih =>
    have hba := hstep b a hI (List.mem_cons_self a l)
    have hrest := ih (f b a) hba.2
      (fun c x hc hx => hstep c x hc (List.mem_cons_of_mem a hx))
    rw [List.scanl_cons, List.singleton_append, List.chain'_cons', List.foldl_cons]
    refine ⟨⟨fun y hy => ?_, hrest.1⟩, hrest.2⟩
    rw [scanl_head] at hy
    simp only [Option.mem_def, Option.some.injEq] at hy
    subst hy
    exact hba.1

theorem batchEvents_shape (outs : List Bool) (e : EngineEv)
    (h : e ∈ (chunks20 outs).flatMap batchEvents) :
    (∃ b, e = EngineEv.target b) ∨ ∃ k, e = EngineEv.batchEnd k := by
  simp only [List.mem_flatMap] at h
  obtain ⟨b, -, hb⟩ := h
  simp only [batchEvents, List.mem_append, List.mem_map, List.mem_singleton] at hb
  rcases hb with ⟨x, -, rfl⟩ | rfl
  · exact Or.inl ⟨x, rfl⟩
  · exact Or.inr ⟨b.length, rfl⟩

theorem applyEv_midRound (c : Campaign) (e : EngineEv)
    (h : (∃ b, e = EngineEv.target b) ∨ ∃ k, e = EngineEv.batchEnd k) :
    countersLE c (applyEv c e) ∧ (applyEv c e).rounds_completed = c.rounds_completed := by
  rcases h with ⟨b, rfl⟩ | ⟨k, rfl⟩
  · cases b <;> refine ⟨⟨?_, ?_, ?_⟩, ?_⟩ <;> dsimp [applyEv] <;> omega
  · dsimp [applyEv]
    split <;> refine ⟨⟨?_, ?_, ?_⟩, ?_⟩ <;> dsimp <;> omega

theorem roundEvents_chain (c : Campaign) (n : Nat) (outs : List Bool)
    (h : c.rounds_completed + 1 = n) :
    List.Chain' countersLE (List.scanl applyEv c (roundEvents n outs)) ∧
    (List.foldl applyEv c (roundEvents n outs)).rounds_completed = n := by
  have hc₁rc : (applyEv c (EngineEv.roundStart n)).rounds_completed + 1 = n := by
    dsimp [applyEv]; omega
  have hcc₁ : countersLE c (applyEv c (EngineEv.roundStart n)) := by
    refine ⟨?_, ?_, ?_⟩ <;> dsimp [applyEv] <;> omega
  obtain ⟨hmidchain, hmidrc⟩ :=
    chain'_scanl_inv (R := countersLE) (I := fun d => d.rounds_completed + 1 = n)
      ((chunks20 outs).flatMap batchEvents) (applyEv c (EngineEv.roundStart n)) hc₁rc
      (fun d e hd he => by
        obtain ⟨hle, heq⟩ := applyEv_midRound d e (batchEvents_shape outs e he)
        exact ⟨hle, by omega⟩)
  have hend : List.Chain' countersLE
      (List.scanl applyEv
        (List.foldl applyEv (applyEv c (EngineEv.roundStart n))
          ((chunks20 outs).flatMap batchEvents)) [EngineEv.roundEnd n]) := by
    simp only [List.scanl]
    refine List.chain'_cons.mpr ⟨⟨?_, ?_, ?_⟩, List.chain'_singleton _⟩ <;>
      dsimp [applyEv] at hmidrc ⊢ <;> omega
  constructor
  · rw [roundEvents, List.scanl_cons, List.singleton_append, List.chain'_cons']
    refine ⟨fun y hy => ?_, chain'_scanl_append _ _ _ hmidchain hend⟩
    rw [scanl_head] at hy
    simp only [Option.mem_def, Option.some.injEq] at hy
    subst hy
    exact hcc₁
  · rw [roundEvents, List.foldl_cons, List.foldl_append, List.foldl_cons,
      List.foldl_nil]
    dsimp [applyEv]

theorem engineAux_chain (rounds : List (List Bool)) (n : Nat) (c : Campaign)
    (h : c.rounds_completed + 1 = n) :
    List.Chain' countersLE (List.scanl applyEv c (engineEventsAux n rounds)) ∧
    (List.foldl applyEv c (engineEventsAux n rounds)).rounds_completed + 1 =
      n + rounds.length := by
  induction rounds generalizing n c with
  | nil => simpa [engineEventsAux] using h
  | cons r rs ih =>
    obtain ⟨hrchain, hrrc⟩ := roundEvents_chain c n r h
    obtain ⟨hrest, hrestrc⟩ :=
      ih (n + 1) (List.foldl applyEv c (roundEvents n r)) (by omega)
    rw [engineEventsAux]
    refine ⟨chain'_scanl_append _ _ _ hrchain hrest, ?_⟩
    rw [List.foldl_append]
    simp only [List.length_cons]
    omega

theorem endEvents_counters (d : Campaign) (ending : Option EndEv) :
    List.Chain' countersLE (List.scanl applyEv d (endEvents ending)) := by
  rcases ending with _ | e
  · simp [endEvents]
  · cases e <;>
      · simp only [endEvents, List.scanl]
        refine List.chain'_cons.mpr ⟨⟨?_, ?_, ?_⟩, List.chain'_singleton _⟩ <;>
          dsimp [applyEv] <;> omega

/-- C4: over a whole run of the forwarding engine — any sequence of rounds
with any per-target outcomes, however it ends — every monitor write leaves
each of the counters `total_sent`, `failed_sends` and `rounds_completed`
greater than or equal to its previously stored value: the sequence of stored
campaign entries is pairwise non-decreasing on all three counters. -/
theorem engine_counters_monotone (rounds : List (List Bool)) (ending : Option EndEv) :
    List.Chain' countersLE
      (List.scanl applyEv initialCampaign (engineEvents rounds ending)) := by
  obtain ⟨hchain, -⟩ := engineAux_chain rounds 1 initialCampaign rfl
  exact chain'_scanl_append _ _ _ hchain (endEvents_counters _ ending)

/-! ### C3: the set of status strings the engine stores -/

/-- The status values the engine of `forward_stored_message` can store: the
seven of the claim (lower-cased as the source writes them) **plus**
`"sending_with_errors"` (adbot.py line 1424). -/
def engineStatusSet : List String :=
  ["running", "sending", "sending_with_errors", "waiting", "stopped",
   "cancelled", "completed", "error"]

theorem applyEv_status (c : Campaign) (e : EngineEv) (h : c.status ∈ engineStatusSet) :
    (applyEv c e).status ∈ engineStatusSet := by
  cases e with
  | target b => cases b <;> simp [applyEv, engineStatusSet]
  | batchEnd k =>
    dsimp [applyEv]
    split
    · simp [engineStatusSet]
    · exact h
  | _ => simp [applyEv, engineStatusSet]

theorem scanl_status_in_set (l : List EngineEv) (c : Campaign)
    (h : c.status ∈ engineStatusSet) :
    ∀ d ∈ List.scanl applyEv c l, d.status ∈ engineStatusSet := by
  induction l generalizing c with
  | nil => intro d hd; simp only [List.scanl] at hd; simpa [List.mem_singleton.mp hd]
  | cons e l ih =>
    intro d hd
    rw [List.scanl_cons, List.singleton_append, List.mem_cons] at hd
    rcases hd with rfl | hd
    · exact h
    · exact ih (applyEv c e) (applyEv_status c e h) d hd

/-- C3 (amended): at every point of an engine run — after the initial
registration and after each monitor write — the stored status is one of the
**eight** values `running, sending, sending_with_errors, waiting, stopped,
cancelled, completed, error`; the write at adbot.py line 1424 stores the
eighth value, which the claim's seven-value set omits. -/
theorem engine_status_in_set (rounds : List (List Bool)) (ending : Option EndEv) :
    ∀ d ∈ List.scanl applyEv initialCampaign (engineEvents rounds ending),
      d.status ∈ engineStatusSet :=
  scanl_status_in_set _ initialCampaign (by simp [initialCampaign, engineStatusSet])

/-- Witness for `engine_status_in_set`: the entry stored right after the
first failed target of round 1 occurs in the trace of the concrete run with
one round and one failing target, and its status is in the eight-value set. -/
theorem engine_status_in_set_witness :
    (⟨"sending_with_errors", 0, 1, 0⟩ : Campaign) ∈
      List.scanl applyEv initialCampaign (engineEvents [[false]] none) ∧
    (⟨"sending_with_errors", 0, 1, 0⟩ : Campaign).status ∈ engineStatusSet :=
  ⟨by decide, engine_status_in_set [[false]] none ⟨"sending_with_errors", 0, 1, 0⟩
    (by decide)⟩

/-- C3 counterexample: in the run with a single round whose single target
fails, the engine stores the status `"sending_with_errors"` (adbot.py line
1424), which is not among the seven values
`running, sending, waiting, stopped, cancelled, completed, error`. -/
theorem engine_status_outside_seven :
    (List.scanl applyEv initialCampaign (engineEvents [[false]] none)).map
        Campaign.status =
      ["running", "sending", "sending_with_errors", "sending", "waiting"] ∧
    "sending_with_errors" ∉
      ["running", "sending", "waiting", "stopped", "cancelled", "completed",
       "error"] := by
  refine ⟨by decide, by decide⟩

/-! ### C5: when the incremental statistics update fires
(adbot.py lines 1429-1459) -/

/-- Whether an engine event is a fired incremental statistics update: the
check `if (len(batch) % 5 == 0) or (len(batch) < 5)` at adbot.py line 1430
sits at the same indentation as `for target in batch` (line 1229), so it
runs **once per batch**, after the whole batch, and tests the batch length. -/
def isIncUpdate : EngineEv → Bool
  | .batchEnd k => k % 5 == 0 || k < 5
  | _ => false

/-- Number of incremental statistics updates pushed during one round over the
per-target outcomes `outs`. -/
def incUpdateCount (outs : List Bool) : Nat :=
  (roundEvents 1 outs).countP isIncUpdate

/-- C5 evaluation at the failing input: in a round with a single batch of 20
targets, the engine pushes exactly one incremental update, and it comes after
all 20 targets (the claim requires one at least every 5 targets, i.e. at
least 4); in a round with a final batch of 17 targets it pushes none at all,
because `17 % 5 ≠ 0` and `17 ≥ 5` — contradicting the source's own comment
"More frequent batch updates after every 5 targets or at end of batch". -/
theorem incremental_update_once_per_batch :
    roundEvents 1 (List.replicate 20 true) =
      EngineEv.roundStart 1 ::
        (List.replicate 20 (EngineEv.target true) ++
          [EngineEv.batchEnd 20, EngineEv.roundEnd 1]) ∧
    incUpdateCount (List.replicate 20 true) = 1 ∧
    incUpdateCount (List.replicate 17 true) = 0 := by
  refine ⟨by decide, by decide, by decide⟩

/-! ### The failed-chats ledger: `self.failed_chats` updates in
`forward_stored_message` (adbot.py lines 1350-1407) -/

/-- A forwarding destination: a bare chat identifier, or a
(chat identifier, topic identifier) pair for a forum topic
(the tuple targets of adbot.py line 1260). -/
inductive Target where
  | chat (id : Int)
  | topic (chatId : Int) (topicId : Int)
deriving DecidableEq

/-- The ledger key of a target (adbot.py line 1352):
`target_key = target[0] if isinstance(target, tuple) else target` — a tuple
target is collapsed to its chat component. -/
def targetKey : Target → Int
  | .chat i => i
  | .topic c _ => c

/-- Leading-segment test on strings (Python `str.startswith`). -/
def strStarts (s pre : String) : Bool :=
  listHasPre pre.data s.data

/-- The entity type guessed at adbot.py lines 1356-1369: decimal ids starting
with `-100` are channels, other negatives groups, the rest users; the check
`isinstance(target, int)` is false for a tuple target, which therefore keeps
`"unknown"`. -/
def entityType : Target → String
  | .chat i =>
    if strStarts (toString i) "-100" then "channel"
    else if strStarts (toString i) "-" then "group" else "user"
  | .topic _ _ => "unknown"

/-- `entity_name = str(target)` (adbot.py line 1358). -/
def entityName : Target → String
  | .chat i => toString i
  | .topic c t => "(" ++ toString c ++ ", " ++ toString t ++ ")"

/-- One element of a record's `error_history`
(adbot.py lines 1381-1386 and 1402-1407). -/
structure ErrEntry where
  timestamp : Nat
  campaign_id : String
  error_type : String
  details : String
deriving DecidableEq

/-- One `failed_chats` entry (adbot.py lines 1372-1387). -/
structure FailureRecord where
  name : String
  type : String
  first_failure : Nat
  last_attempt : Nat
  reason : String
  detail : String
  failed_count : Nat
  campaign_ids : List String
  error_history : List ErrEntry
deriving DecidableEq

/-- Dictionary lookup in the `failed_chats` map. -/
def ledgerGet : List (Int × FailureRecord) → Int → Option FailureRecord
  | [], _ => none
  | (k, r) :: t, key => if k = key then some r else ledgerGet t key

/-- Dictionary store in the `failed_chats` map. -/
def ledgerSet : List (Int × FailureRecord) → Int → FailureRecord → List (Int × FailureRecord)
  | [], key, r => [(key, r)]
  | (k, r₀) :: t, key, r =>
    if k = key then (key, r) :: t else (k, r₀) :: ledgerSet t key r

/-- Python `set.add` on the `campaign_ids` set (adbot.py line 1397). -/
def addCampaignId (ids : List String) (c : String) : List String :=
  if c ∈ ids then ids else ids ++ [c]

/-- The failed-chats update of adbot.py lines 1350-1407: compute
`target_key`, then either create a fresh entry (`failed_count = 1`,
`first_failure = last_attempt = now`, lines 1372-1387) or update the
existing one in place (`last_attempt`, `reason`, `detail`, `failed_count`,
`campaign_ids`, `error_history`; lines 1388-1407). -/
def recordFailure (ledger : List (Int × FailureRecord)) (target : Target)
    (campaignId : String) (errorMessage : String) (now : Nat) :
    List (Int × FailureRecord) :=
  let key := targetKey target
  match ledgerGet ledger key with
  | none =>
    ledgerSet ledger key
      { name := entityName target
        type := entityType target
        first_failure := now
        last_attempt := now
        reason := classify_error errorMessage
        detail := errorMessage
        failed_count := 1
        campaign_ids := [campaignId]
        error_history := [⟨now, campaignId, classify_error errorMessage, errorMessage⟩] }
  | some fc =>
    ledgerSet ledger key
      { fc with
        last_attempt := now
        reason := classify_error errorMessage
        detail := errorMessage
        failed_count := fc.failed_count + 1
        campaign_ids := addCampaignId fc.campaign_ids campaignId
        error_history := fc.error_history ++
          [⟨now, campaignId, classify_error errorMessage, errorMessage⟩] }

theorem ledgerGet_set_self (l : List (Int × FailureRecord)) (k : Int)
    (r : FailureRecord) : ledgerGet (ledgerSet l k r) k = some r := by
  induction l with
  | nil => simp [ledgerSet, ledgerGet]
  | cons p t ih =>
    obtain ⟨k₀, r₀⟩ := p
    by_cases h : k₀ = k
    · subst h; simp [ledgerSet, ledgerGet]
    · simp [ledgerSet, ledgerGet, h, ih]

theorem ledgerSet_length_of_get (l : List (Int × FailureRecord)) (k : Int)
    (r r' : FailureRecord) (h : ledgerGet l k = some r') :
    (ledgerSet l k r).length = l.length := by
  induction l with
  | nil => simp [ledgerGet] at h
  | cons p t ih =>
    obtain ⟨k₀, r₀⟩ := p
    by_cases hk : k₀ = k
    · subst hk; simp [ledgerSet]
    · rw [ledgerGet, if_neg hk] at h
      simp [ledgerSet, hk, ih h]

theorem recordFailure_get_self (l : List (Int × FailureRecord)) (t : Target)
    (c e : String) (n : Nat) :
    ∃ fc, ledgerGet (recordFailure l t c e n) (targetKey t) = some fc := by
  unfold recordFailure
  dsimp only
  split <;> exact ⟨_, ledgerGet_set_self ..⟩

theorem recordFailure_length_of_get (l : List (Int × FailureRecord))
    (t : Target) (c e : String) (n : Nat) (fc : FailureRecord)
    (h : ledgerGet l (targetKey t) = some fc) :
    (recordFailure l t c e n).length = l.length := by
  unfold recordFailure
  dsimp only
  rw [h]
  exact ledgerSet_length_of_get _ _ _ fc h

/-- C9 (amended): the failure ledger is keyed by the **chat identifier**
(`targetKey`), not by the full Target: recording a failure against a second
target with the same chat identifier — another sub-thread of the chat, or
the bare chat itself — updates the single existing record instead of
creating a second one. -/
theorem ledger_keyed_by_chat (l : List (Int × FailureRecord)) (t₁ t₂ : Target)
    (c₁ c₂ e₁ e₂ : String) (n₁ n₂ : Nat)
    (h : targetKey t₁ = targetKey t₂) :
    (recordFailure (recordFailure l t₁ c₁ e₁ n₁) t₂ c₂ e₂ n₂).length =
      (recordFailure l t₁ c₁ e₁ n₁).length := by
  obtain ⟨fc, hfc⟩ := recordFailure_get_self l t₁ c₁ e₁ n₁
  rw [h] at hfc
  exact recordFailure_length_of_get _ t₂ c₂ e₂ n₂ fc hfc

/-- Witness for `ledger_keyed_by_chat`: two different sub-threads of chat
100 share the single record created by the first failure. -/
theorem ledger_keyed_by_chat_witness :
    targetKey (Target.topic 100 1) = targetKey (Target.topic 100 2) ∧
    (recordFailure (recordFailure [] (Target.topic 100 1) "c1" "banned" 10)
        (Target.topic 100 2) "c2" "banned" 11).length =
      (recordFailure [] (Target.topic 100 1) "c1" "banned" 10).length :=
  ⟨by decide,
    ledger_keyed_by_chat [] (Target.topic 100 1) (Target.topic 100 2)
      "c1" "c2" "banned" "banned" 10 11 (by decide)⟩

/-- C9 counterexample: the two distinct Targets (chat 100, thread 1) and
(chat 100, thread 2) do **not** get two distinct FailureRecords: after
recording one failure against each, the ledger holds a single record, at key
100, with `failed_count = 2`. -/
theorem ledger_merges_distinct_targets :
    Target.topic 100 1 ≠ Target.topic 100 2 ∧
    (recordFailure (recordFailure [] (Target.topic 100 1) "c1" "banned" 10)
        (Target.topic 100 2) "c1" "banned" 11).length = 1 ∧
    (ledgerGet
        (recordFailure (recordFailure [] (Target.topic 100 1) "c1" "banned" 10)
          (Target.topic 100 2) "c1" "banned" 11) 100).map
        FailureRecord.failed_count = some 2 := by
  refine ⟨by decide, by decide, by decide⟩

/-- C10: updating the record of a target that already has one modifies
exactly `last_attempt`, `reason`, `detail`, `failed_count`, `campaign_ids`
and `error_history`, and preserves `name`, `type` and `first_failure` —
so `first_failure` keeps the timestamp of the very first recorded failure. -/
theorem recordFailure_frame (l : List (Int × FailureRecord)) (t : Target)
    (c e : String) (n : Nat) (fc : FailureRecord)
    (h : ledgerGet l (targetKey t) = some fc) :
    ∃ fc', ledgerGet (recordFailure l t c e n) (targetKey t) = some fc' ∧
      fc'.name = fc.name ∧ fc'.type = fc.type ∧
      fc'.first_failure = fc.first_failure ∧
      fc'.last_attempt = n ∧ fc'.reason = classify_error e ∧ fc'.detail = e ∧
      fc'.failed_count = fc.failed_count + 1 ∧
      fc'.campaign_ids = addCampaignId fc.campaign_ids c ∧
      fc'.error_history = fc.error_history ++ [⟨n, c, classify_error e, e⟩] := by
  refine ⟨{ fc with
      last_attempt := n
      reason := classify_error e
      detail := e
      failed_count := fc.failed_count + 1
      campaign_ids := addCampaignId fc.campaign_ids c
      error_history := fc.error_history ++ [⟨n, c, classify_error e, e⟩] },
    ?_, rfl, rfl, rfl, rfl, rfl, rfl, rfl, rfl, rfl⟩
  unfold recordFailure
  dsimp only
  rw [h]
  exact ledgerGet_set_self ..

/-- Witness for `recordFailure_frame`: a ledger holding one record for chat
5 keeps its `name`, `type` and `first_failure` across an update. -/
theorem recordFailure_frame_witness :
    ledgerGet [((5 : Int),
        (⟨"n", "user", 3, 3, "other", "x", 1, ["c0"], []⟩ : FailureRecord))]
      (targetKey (Target.chat 5)) =
      some ⟨"n", "user", 3, 3, "other", "x", 1, ["c0"], []⟩ ∧
    ∃ fc', ledgerGet
        (recordFailure
          [((5 : Int),
            (⟨"n", "user", 3, 3, "other", "x", 1, ["c0"], []⟩ : FailureRecord))]
          (Target.chat 5) "c1" "banned" 7)
        (targetKey (Target.chat 5)) = some fc' ∧
      fc'.name = "n" ∧ fc'.type = "user" ∧ fc'.first_failure = 3 ∧
      fc'.last_attempt = 7 ∧ fc'.reason = classify_error "banned" ∧
      fc'.detail = "banned" ∧ fc'.failed_count = 1 + 1 ∧
      fc'.campaign_ids = addCampaignId ["c0"] "c1" ∧
      fc'.error_history = ([] : List ErrEntry) ++ [⟨7, "c1", classify_error "banned", "banned"⟩] :=
  ⟨by decide,
    recordFailure_frame _ (Target.chat 5) "c1" "banned" 7
      ⟨"n", "user", 3, 3, "other", "x", 1, ["c0"], []⟩ (by decide)⟩

/-! ### `MonitorDashboard.start_live_monitor` and `is_being_monitored`
(adbot.py lines 545-554) -/

/-- The monitor-attachment state: the `active_monitors` dict (campaign id →
(message, chat id)) and the list of `_live_monitor` tasks created so far, in
creation order (`asyncio.create_task` at adbot.py line 553). -/
structure MonitorReg where
  active_monitors : List (String × (Nat × Nat))
  tasks : List String
deriving DecidableEq

/-- Dictionary store in `active_monitors`. -/
def assocSet : List (String × (Nat × Nat)) → String → (Nat × Nat) →
    List (String × (Nat × Nat))
  | [], k, v => [(k, v)]
  | (k₀, v₀) :: t, k, v =>
    if k₀ = k then (k, v) :: t else (k₀, v₀) :: assocSet t k v

/-- Python `campaign_id in self.active_monitors`. -/
def assocHas : List (String × (Nat × Nat)) → String → Bool
  | [], _ => false
  | (k₀, _) :: t, k => k₀ = k || assocHas t k

/-- `MonitorDashboard.is_being_monitored` (adbot.py lines 545-549): false for
a falsy campaign id, otherwise dict membership. This helper is never called
anywhere in the source. -/
def is_being_monitored (m : MonitorReg) (campaignId : String) : Bool :=
  if campaignId.isEmpty then false else assocHas m.active_monitors campaignId

/-- `MonitorDashboard.start_live_monitor` (adbot.py lines 551-554): without
any already-monitored check, store the (message, chat id) pair under the
campaign id and create a new `_live_monitor` task. -/
def start_live_monitor (m : MonitorReg) (campaignId : String)
    (message chatId : Nat) : MonitorReg :=
  { active_monitors := assocSet m.active_monitors campaignId (message, chatId)
    tasks := m.tasks ++ [campaignId] }

theorem assocHas_set (l : List (String × (Nat × Nat))) (k : String)
    (v : Nat × Nat) : assocHas (assocSet l k v) k = true := by
  induction l with
  | nil => simp [assocSet, assocHas]
  | cons p t ih =>
    obtain ⟨k₀, v₀⟩ := p
    by_cases h : k₀ = k
    · subst h; simp [assocSet, assocHas]
    · simp [assocSet, assocHas, h, ih]

/-- C7 (amended): `start_live_monitor` performs no conflict check (the
`is_being_monitored` helper exists but is called nowhere): every attach
unconditionally overwrites the `active_monitors` entry and creates one more
`_live_monitor` task, so attaching to an already-monitored campaign is not a
no-op and yields a second concurrent monitor task for that campaign. -/
theorem start_live_monitor_always_starts (m : MonitorReg) (campaignId : String)
    (message chatId : Nat) :
    (start_live_monitor m campaignId message chatId).tasks =
      m.tasks ++ [campaignId] ∧
    assocHas (start_live_monitor m campaignId message chatId).active_monitors
      campaignId = true :=
  ⟨rfl, assocHas_set ..⟩

/-- C7 counterexample: attaching twice to campaign `"c1"` — the second time
while `is_being_monitored` is already true — changes the state again and
leaves **two** monitor tasks for `"c1"`, not a no-op with one task. -/
theorem double_attach_two_tasks :
    is_being_monitored (start_live_monitor ⟨[], []⟩ "c1" 1 2) "c1" = true ∧
    (start_live_monitor (start_live_monitor ⟨[], []⟩ "c1" 1 2) "c1" 1 2).tasks =
      ["c1", "c1"] ∧
    start_live_monitor (start_live_monitor ⟨[], []⟩ "c1" 1 2) "c1" 1 2 ≠
      start_live_monitor ⟨[], []⟩ "c1" 1 2 := by
  refine ⟨by decide, by decide, by decide⟩

end AdBot
